import Mathlib

/-!
HTTP handlers of the alfred web backend.

A shallow embedding of `web/confhandlers.go` and `web/securityhandlers.go`.

Every handler is a function of the request data it reads and of a `World`
that answers the calls the handler makes (datastore, chat API, captcha
service, clock, libraries).  A handler evaluates to a `Run`: the ordered list
of effects it performed (calls made, response writes) together with how it
ended (normal return, or a Go panic carrying the error).
-/

namespace Alfred

/-! ## Data model -/

/-- Go slice value: `none` is the nil slice (encoded by `encoding/json` as
`null`), `some l` is a non-nil slice with elements `l`. -/
abbrev Slice (α : Type) := Option (List α)

/-- Go builtin `append(s, x)`: appending to the nil slice allocates. -/
def Slice.append {α : Type} (s : Slice α) (x : α) : Slice α :=
  match s with
  | none => some [x]
  | some l => some (l ++ [x])

/-- The elements of a slice, in order (the nil slice has none). -/
def Slice.elems {α : Type} (s : Slice α) : List α :=
  match s with
  | none => []
  | some l => l

/-- Instants and durations, in nanoseconds. -/
abbrev Time := Int

/-- Go `time.Minute` in nanoseconds. -/
def Minute : Int := 60000000000

/-- Go `Time.Sub`: the difference, saturated to the int64 range of `Duration`. -/
def timeSub (t u : Time) : Int :=
  let d := t - u
  if d > 9223372036854775807 then 9223372036854775807
  else if d < -9223372036854775808 then -9223372036854775808
  else d

/-- Two's complement wrap-around of int64 arithmetic. -/
def wrap64 (x : Int) : Int := (x + 9223372036854775808) % 18446744073709551616 - 9223372036854775808

/-- Go `len(s)` of a string: its length in bytes (of the UTF-8 encoding). -/
def len (s : String) : Nat := s.utf8ByteSize

/-- web `Error` (declared outside these two files; fields as used by the
keyed literals in `match` and `save`). -/
structure Error where
  ID : String
  Status : Nat
  Title : String
  Detail : String
  deriving DecidableEq, Repr

/-- domain `Configuration` (fields as read by `info`). -/
structure Configuration where
  Channels : List String
  Groups : List String
  VerboseChannels : List String
  VerboseGroups : List String
  IM : Bool
  VerboseIM : Bool
  Regexp : String
  All : Bool
  deriving DecidableEq, Repr

/-- domain `OAuthState`. -/
structure OAuthState where
  State : String
  Timestamp : Time
  deriving DecidableEq, Repr

/-- domain `Team`, as built by `loginOAuth`. -/
structure Team where
  ID : String
  Name : String
  EmailDomain : String
  Domain : String
  Plan : String
  ExternalID : String
  deriving DecidableEq, Repr

/-- domain `User`, as built by `loginOAuth`. -/
structure User where
  ID : String
  Team : String
  Name : String
  Type_ : String
  Status : String
  RealName : String
  Email : String
  IsBot : Bool
  IsAdmin : Bool
  IsOwner : Bool
  IsPrimaryOwner : Bool
  IsRestricted : Bool
  IsUltraRestricted : Bool
  ExternalID : String
  Token : String
  deriving DecidableEq, Repr

/-- slack channel, the fields the handlers read. -/
structure Channel where
  ID : String
  Name : String
  IsMember : Bool
  deriving DecidableEq, Repr

/-- slack group, the fields the handlers read. -/
structure Group where
  ID : String
  Name : String
  deriving DecidableEq, Repr

/-- slack `oauth.access` response, the field the handler reads. -/
structure OAuthToken where
  AccessToken : String
  deriving DecidableEq, Repr

/-- slack `auth.test` response, the field the handler reads. -/
structure AuthTestResponse where
  UserID : String
  deriving DecidableEq, Repr

/-- slack `team.info` response: the fields of `team.Team` the handler reads. -/
structure TeamInfoResponse where
  ID : String
  Name : String
  EmailDomain : String
  Domain : String
  Plan : String
  deriving DecidableEq, Repr

/-- slack `users.info` response: the fields of `user.User` the handler reads
(`Email` is `user.User.Profile.Email`). -/
structure UserInfoResponse where
  ID : String
  Name : String
  RealName : String
  Email : String
  IsBot : Bool
  IsAdmin : Bool
  IsOwner : Bool
  IsPrimaryOwner : Bool
  IsRestricted : Bool
  IsUltraRestricted : Bool
  deriving DecidableEq, Repr

structure idName where
  ID : String
  Name : String
  Selected : Bool
  Verbose : Bool
  deriving DecidableEq, Repr

structure infoResponse where
  Channels : Slice idName
  Groups : Slice idName
  IM : Bool
  VerboseIM : Bool
  Regexp : String
  All : Bool
  deriving DecidableEq, Repr

structure join where
  Email : String
  CaptchaResponse : String
  deriving DecidableEq, Repr

structure regexpMatch where
  Regexp : String
  deriving DecidableEq, Repr

structure googleResponse where
  Success : Bool
  ErrorCodes : List String
  deriving DecidableEq, Repr

structure simpleUser where
  Name : String
  Email : String
  RealName : String
  deriving DecidableEq, Repr

/-- web `session` (declared outside these two files; built positionally by
`loginOAuth` from name, user id and time). -/
structure session where
  Name : String
  UserID : String
  Timestamp : Time
  deriving DecidableEq, Repr

/-- Go `http.Cookie`, the fields the handlers set. -/
structure Cookie where
  Name : String
  Value : String
  Path : String
  Expires : Time
  MaxAge : Int
  Secure : Bool
  HttpOnly : Bool
  deriving DecidableEq, Repr

/-- A compiled regular expression: what `MatchString` answers. -/
structure Regexp where
  MatchString : String → Bool

/-- An HTTP response as seen by `joinSlack`: reading the whole body gives its
text or an error. -/
structure Response where
  Body : Except String String

/-! ## Effects -/

/-- Calls that leave the handler: datastore (`ac.r`), queue (`ac.q`), chat
API (`slack`), captcha service, and the library calls whose results the
handlers branch on. -/
inductive Call where
  | ChannelsAndGroups (team : String)
  | SetChannelsAndGroups (team : String) (c : Configuration)
  | OAuthState (state : String)
  | SetOAuthState (s : OAuthState)
  | SetTeamAndUser (t : Team) (u : User)
  | JoinSlackChannel (email : String)
  | PushConf (team : String) (c : Configuration)
  | SlackNew (token : String)
  | ChannelList (token : String) (excludeArchived : Bool)
  | GroupList (token : String) (excludeArchived : Bool)
  | OAuthAccess (clientID clientSecret code redirectURI : String)
  | AuthTest (token : String)
  | TeamInfo (token : String)
  | UserInfo (token : String) (user : String)
  | PostForm (url : String) (values : List (String × List String))
  | ReadAll
  | BodyClose
  | Unmarshal (body : String)
  | RandomNew
  | EncryptJSON (s : session) (key : String)
  deriving DecidableEq, Repr

/-- Calls on the datastore `ac.r`. -/
def Call.isDatastore : Call → Bool
  | .ChannelsAndGroups _ => true
  | .SetChannelsAndGroups _ _ => true
  | .OAuthState _ => true
  | .SetOAuthState _ => true
  | .SetTeamAndUser _ _ => true
  | .JoinSlackChannel _ => true
  | _ => false

/-- Calls to an external HTTP API: the chat platform and the captcha service. -/
def Call.isExternalAPI : Call → Bool
  | .SlackNew _ => true
  | .ChannelList _ _ => true
  | .GroupList _ _ => true
  | .OAuthAccess _ _ _ _ => true
  | .AuthTest _ => true
  | .TeamInfo _ => true
  | .UserInfo _ _ => true
  | .PostForm _ _ => true
  | .ReadAll => true
  | _ => false

/-- Values handed to `json.NewEncoder(w).Encode`. -/
inductive JSONValue where
  | strings (l : Slice String)
  | info (r : infoResponse)
  | user (u : simpleUser)
  deriving DecidableEq, Repr

/-- One observable effect of a handler. -/
inductive Event where
  /-- A call whose error result the handler receives: `err` is the error it
  returned (`none` for a nil error). -/
  | call (c : Call) (err : Option String)
  /-- A call whose result the handler does not bind. -/
  | invoke (c : Call)
  | WriteError (e : Error)
  | SetCookie (c : Cookie)
  | WriteHeader (status : Nat)
  | Write (body : String)
  | Encode (v : JSONValue)
  | Redirect (url : String) (status : Nat)
  | Log (level : String) (msg : String)
  deriving DecidableEq, Repr

/-- How a handler ends. -/
inductive Outcome where
  | returned
  | panicked (err : String)
  deriving DecidableEq, Repr

/-- Result of a computation step: a value, or a panic unwinding the handler. -/
inductive Step (α : Type) where
  | next (a : α)
  | panicked (err : String)

/-- An effectful computation that has been run: the effects performed, in
order, and the value produced or the panic raised. -/
structure Run (α : Type) where
  trace : List Event
  step : Step α

def Run.pure {α : Type} (a : α) : Run α := ⟨[], .next a⟩

def Run.bind {α β : Type} (m : Run α) (f : α → Run β) : Run β :=
  match m.step with
  | .next a => ⟨m.trace ++ (f a).trace, (f a).step⟩
  | .panicked e => ⟨m.trace, .panicked e⟩

instance : Monad Run where
  pure := Run.pure
  bind := Run.bind

/-- How a finished handler ended. -/
def Run.outcome (m : Run Unit) : Outcome :=
  match m.step with
  | .next _ => .returned
  | .panicked e => .panicked e

/-- Perform one effect. -/
def emit (e : Event) : Run Unit := ⟨[e], .next ()⟩

/-- Go `panic(err)`. -/
def goPanic {α : Type} (err : String) : Run α := ⟨[], .panicked err⟩

/-- The error carried by a result, if any. -/
def errOf {α : Type} : Except String α → Option String
  | .ok _ => none
  | .error e => some e

/-- Make a call answered by `r` and hand the answer to the handler. -/
def call {α : Type} (c : Call) (r : Except String α) : Run (Except String α) :=
  ⟨[Event.call c (errOf r)], .next r⟩

/-- Go `defer`: `e` happens when the rest of the function `body` is left,
whether by return or by panic. -/
def deferred {α : Type} (e : Event) (body : Run α) : Run α :=
  ⟨body.trace ++ [e], body.step⟩

/-- An optional error as a result without value. -/
def asResult : Option String → Except String Unit
  | none => .ok ()
  | some e => .error e

/-! ## The environment of a request -/

/-- The `conf.Options` fields the handlers read. -/
structure Options where
  SlackClientID : String
  SlackClientSecret : String
  Env : String
  SessionKey : String
  Timeout : Int
  Recaptcha : String

/-- Everything outside the two source files that a handler's behaviour
depends on. -/
structure World where
  Options : Options
  /-- web constants declared outside these two files. -/
  sessionCookie : String
  ErrBadRequest : Error
  ErrBadContentRequest : Error
  ErrBadCaptcha : Error
  /-- domain constants. -/
  UserTypeSlack : String
  UserStatusActive : String
  /-- the k-th reading of `time.Now()` within the request. -/
  now : Nat → Time
  /-- the k-th `random.New()` within the request, as `uuid.String()`. -/
  randomNew : Nat → Except String String
  /-- Go `regexp.Compile`. -/
  Compile : String → Except String Regexp
  /-- `govalidator.IsEmail`. -/
  IsEmail : String → Bool
  /-- `oauth2.Config.AuthCodeURL` for the configuration built in
  `initiateOAuth`, by client id, client secret and state. -/
  AuthCodeURL : String → String → String → String
  /-- `util.EncryptJSON`: value and error. -/
  EncryptJSON : session → String → String × Option String
  /-- datastore `ac.r`. -/
  ChannelsAndGroups : String → Except String Configuration
  SetChannelsAndGroups : String → Configuration → Option String
  OAuthState : String → Except String OAuthState
  SetTeamAndUser : Team → User → Option String
  JoinSlackChannel : String → Option String
  /-- chat API, by token. -/
  SlackNew : String → Option String
  ChannelList : String → Bool → Except String (List Channel)
  GroupList : String → Bool → Except String (List Group)
  OAuthAccess : String → String → String → String → Except String OAuthToken
  AuthTest : String → Except String AuthTestResponse
  TeamInfo : String → Except String TeamInfoResponse
  UserInfo : String → String → Except String UserInfoResponse
  /-- captcha service. -/
  PostForm : String → List (String × List String) → Except String Response
  /-- `json.Unmarshal` into a `googleResponse`. -/
  Unmarshal : String → Except String googleResponse

/-- Modelled from the spec: `util.In` of package `alfred/util`, which is not
among the source files; the spec has the flags of the info response "exactly
match the stored configuration's membership sets", so `In l s` is membership
of `s` in `l`. -/
def In (l : List String) (s : String) : Bool := l.contains s

/-- `WriteError(w, e)`: the call is recorded with the error value it is given. -/
def WriteError (e : Error) : Run Unit := emit (.WriteError e)

/-! ## confhandlers.go -/

/-- `AppContext.info`; `u` is the user found in the request context. -/
def info (w : World) (u : User) : Run Unit := do
  -- First, get the current selection (if at all)
  let savedChannels ← match ← call (.ChannelsAndGroups u.Team) (w.ChannelsAndGroups u.Team) with
    | .error err => goPanic err
    | .ok v => pure v
  match ← call (.SlackNew u.Token) (asResult (w.SlackNew u.Token)) with
    | .error err => goPanic err
    | .ok _ => pure ()
  let ch ← match ← call (.ChannelList u.Token true) (w.ChannelList u.Token true) with
    | .error err => goPanic err
    | .ok v => pure v
  let resChannels : Slice idName := ch.foldl (fun res c =>
    if c.IsMember then
      let selected := In savedChannels.Channels c.ID
      let verbose := In savedChannels.VerboseChannels c.ID
      res.append { ID := c.ID, Name := c.Name, Selected := selected, Verbose := verbose }
    else res) none
  let gr ← match ← call (.GroupList u.Token true) (w.GroupList u.Token true) with
    | .error err => goPanic err
    | .ok v => pure v
  let resGroups : Slice idName := gr.foldl (fun res g =>
    let selected := In savedChannels.Groups g.ID
    let verbose := In savedChannels.VerboseGroups g.ID
    res.append { ID := g.ID, Name := g.Name, Selected := selected, Verbose := verbose }) none
  emit (.Encode (.info {
    Channels := resChannels, Groups := resGroups,
    IM := savedChannels.IM, VerboseIM := savedChannels.VerboseIM,
    Regexp := savedChannels.Regexp, All := savedChannels.All }))

/-- `AppContext.match`; `req` is the body and `u` the user found in the
request context. -/
def match_ (w : World) (req : regexpMatch) (u : User) : Run Unit := do
  let mut res : Slice String := some []
  if req.Regexp ≠ "" then
    -- First, let's compile the regexp
    match w.Compile req.Regexp with
    | .error err =>
      WriteError { ID := "bad_request", Status := 400, Title := "Bad Request",
                   Detail := "Error parsing regexp - " ++ err }
      return
    | .ok re =>
      match ← call (.SlackNew u.Token) (asResult (w.SlackNew u.Token)) with
        | .error err => goPanic err
        | .ok _ => pure ()
      let ch ← match ← call (.ChannelList u.Token true) (w.ChannelList u.Token true) with
        | .error err => goPanic err
        | .ok v => pure v
      res := ch.foldl (fun res c =>
        if c.IsMember then
          if re.MatchString c.Name then res.append c.Name else res
        else res) res
      let gr ← match ← call (.GroupList u.Token true) (w.GroupList u.Token true) with
        | .error err => goPanic err
        | .ok v => pure v
      res := gr.foldl (fun res g =>
        if re.MatchString g.Name then res.append g.Name else res) res
  emit (.Encode (.strings res))

/-- `AppContext.save`; `req` is the body and `u` the user found in the
request context. -/
def save (w : World) (req : Configuration) (u : User) : Run Unit := do
  -- Before saving, validate that the regexp is valid
  if req.Regexp ≠ "" then
    match w.Compile req.Regexp with
    | .error err =>
      WriteError { ID := "bad_request", Status := 400, Title := "Bad Request",
                   Detail := "Error parsing regexp - " ++ err }
      return
    | .ok _ => pure ()
  match ← call (.SetChannelsAndGroups u.Team req) (asResult (w.SetChannelsAndGroups u.Team req)) with
    | .error err => goPanic err
    | .ok _ => pure ()
  emit (.invoke (.PushConf u.Team req))
  emit (.WriteHeader 204)
  emit (.Write "\n")

/-- Address of the captcha verification service. -/
def siteverify : String := "https://www.google.com/recaptcha/api/siteverify"

/-- `AppContext.joinSlack`; `req` is the body found in the request context. -/
def joinSlack (w : World) (req : join) : Run Unit := do
  if !w.IsEmail req.Email || req.CaptchaResponse == "" || decide (len req.Email > 128) then
    WriteError w.ErrBadRequest
    return
  let values := [("secret", [w.Options.Recaptcha]), ("response", [req.CaptchaResponse])]
  let resp ← match ← call (.PostForm siteverify values) (w.PostForm siteverify values) with
    | .error err => do
      emit (.Log "debug" ("Recaptcha error - " ++ err))
      goPanic err
    | .ok v => pure v
  deferred (.invoke .BodyClose) do
    let body ← match ← call .ReadAll resp.Body with
      | .error err => do
        emit (.Log "debug" ("Recaptcha body error - " ++ err))
        goPanic err
      | .ok v => pure v
    let gr ← match ← call (.Unmarshal body) (w.Unmarshal body) with
      | .error err => do
        emit (.Log "debug" ("Recaptcha body parse error - " ++ err))
        goPanic err
      | .ok v => pure v
    if !gr.Success then
      WriteError w.ErrBadCaptcha
      return
    match ← call (.JoinSlackChannel req.Email) (asResult (w.JoinSlackChannel req.Email)) with
      | .error err => goPanic err
      | .ok _ => pure ()
    emit (.WriteHeader 204)
    emit (.Write "\n")

/-! ## securityhandlers.go -/

/-- `AppContext.initiateOAuth`. -/
def initiateOAuth (w : World) : Run Unit := do
  -- First, generate a random state
  let uuid ← match ← call .RandomNew (w.randomNew 0) with
    | .error err => goPanic err
    | .ok v => pure v
  -- Store state
  emit (.invoke (.SetOAuthState { State := uuid, Timestamp := w.now 0 }))
  let url := w.AuthCodeURL w.Options.SlackClientID w.Options.SlackClientSecret uuid
  emit (.Redirect url 302)

/-- `AppContext.loginOAuth`; `FormValue` is `r.FormValue`. -/
def loginOAuth (w : World) (FormValue : String → String) : Run Unit := do
  let state := FormValue "state"
  let code := FormValue "code"
  let errStr := FormValue "error"
  if errStr ≠ "" then
    WriteError { ID := "oauth_err", Status := 401, Title := "Slack OAuth Error", Detail := errStr }
    return
  if state = "" ∨ code = "" then
    WriteError w.ErrBadContentRequest
    return
  let savedState ← match ← call (.OAuthState state) (w.OAuthState state) with
    | .error _ => do
      WriteError w.ErrBadContentRequest
      return
    | .ok v => pure v
  -- We allow only 5 min between requests
  if timeSub (w.now 0) savedState.Timestamp > 5 * Minute then
    WriteError w.ErrBadRequest
  let token ← match ← call (.OAuthAccess w.Options.SlackClientID w.Options.SlackClientSecret code "")
      (w.OAuthAccess w.Options.SlackClientID w.Options.SlackClientSecret code "") with
    | .error err => do
      WriteError { ID := "oauth_err", Status := 401, Title := "Slack OAuth Error", Detail := err }
      return
    | .ok v => pure v
  let userID ← match ← call .RandomNew (w.randomNew 0) with
    | .error err => goPanic err
    | .ok v => pure v
  let teamID ← match ← call .RandomNew (w.randomNew 1) with
    | .error err => goPanic err
    | .ok v => pure v
  match ← call (.SlackNew token.AccessToken) (asResult (w.SlackNew token.AccessToken)) with
    | .error err => goPanic err
    | .ok _ => pure ()
  -- Get our own user id
  let test ← match ← call (.AuthTest token.AccessToken) (w.AuthTest token.AccessToken) with
    | .error err => goPanic err
    | .ok v => pure v
  let team ← match ← call (.TeamInfo token.AccessToken) (w.TeamInfo token.AccessToken) with
    | .error err => goPanic err
    | .ok v => pure v
  let ourTeam : Team := {
    ID := "T" ++ teamID,
    Name := team.Name,
    EmailDomain := team.EmailDomain,
    Domain := team.Domain,
    Plan := team.Plan,
    ExternalID := team.ID }
  let user ← match ← call (.UserInfo token.AccessToken test.UserID)
      (w.UserInfo token.AccessToken test.UserID) with
    | .error err => goPanic err
    | .ok v => pure v
  let ourUser : User := {
    ID := "U" ++ userID,
    Team := "T" ++ teamID,
    Name := user.Name,
    Type_ := w.UserTypeSlack,
    Status := w.UserStatusActive,
    RealName := user.RealName,
    Email := user.Email,
    IsBot := user.IsBot,
    IsAdmin := user.IsAdmin,
    IsOwner := user.IsOwner,
    IsPrimaryOwner := user.IsPrimaryOwner,
    IsRestricted := user.IsRestricted,
    IsUltraRestricted := user.IsUltraRestricted,
    ExternalID := user.ID,
    Token := token.AccessToken }
  match ← call (.SetTeamAndUser ourTeam ourUser) (asResult (w.SetTeamAndUser ourTeam ourUser)) with
    | .error err => goPanic err
    | .ok _ => pure ()
  emit (.Log "info" ("User " ++ ourUser.Name ++ " logged in\n"))
  let sess : session := { Name := ourUser.Name, UserID := ourUser.ID, Timestamp := w.now 1 }
  let secure := w.Options.Env == "PROD" || w.Options.Env == "TEST"
  let enc := w.EncryptJSON sess w.Options.SessionKey
  emit (.call (.EncryptJSON sess w.Options.SessionKey) enc.2)
  let val := enc.1
  -- Set the cookie for the user
  emit (.SetCookie {
    Name := w.sessionCookie, Value := val, Path := "/",
    Expires := w.now 2 + wrap64 (w.Options.Timeout * Minute),
    MaxAge := wrap64 (w.Options.Timeout * 60),
    Secure := secure, HttpOnly := true })
  emit (.Redirect "/conf" 302)

/-- `AppContext.logout`. -/
def logout (w : World) : Run Unit := do
  let secure := w.Options.Env == "PROD" || w.Options.Env == "TEST"
  emit (.SetCookie {
    Name := w.sessionCookie, Value := "", Path := "/", Expires := w.now 0,
    MaxAge := -1, Secure := secure, HttpOnly := true })
  emit (.WriteHeader 204)
  emit (.Write "\n")

/-- `AppContext.currUser`; `u` is the user found in the request context. -/
def currUser (_w : World) (u : User) : Run Unit := do
  let externalUser : simpleUser := { Name := u.Name, Email := u.Email, RealName := u.RealName }
  emit (.Encode (.user externalUser))

/-- A request to one of the handlers, with the data that handler reads. -/
inductive Request where
  | info (u : User)
  | match_ (req : regexpMatch) (u : User)
  | save (req : Configuration) (u : User)
  | joinSlack (req : join)
  | initiateOAuth
  | loginOAuth (FormValue : String → String)
  | logout
  | currUser (u : User)

/-- Dispatch of a request to its handler. -/
def serve (w : World) : Request → Run Unit
  | .info u => info w u
  | .match_ req u => match_ w req u
  | .save req u => save w req u
  | .joinSlack req => joinSlack w req
  | .initiateOAuth => initiateOAuth w
  | .loginOAuth f => loginOAuth w f
  | .logout => logout w
  | .currUser u => currUser w u

/-! ## Predicates on effects -/

/-- The effect is a call on the datastore `ac.r`. -/
def Event.touchesDatastore : Event → Bool
  | .call c _ => c.isDatastore
  | .invoke c => c.isDatastore
  | _ => false

/-- The effect is the token exchange `slack.OAuthAccess`. -/
def Event.isOAuthAccess : Event → Bool
  | .call (.OAuthAccess _ _ _ _) _ => true
  | .invoke (.OAuthAccess _ _ _ _) => true
  | _ => false

/-- The effect is `ac.r.SetTeamAndUser`. -/
def Event.isSetTeamAndUser : Event → Bool
  | .call (.SetTeamAndUser _ _) _ => true
  | .invoke (.SetTeamAndUser _ _) => true
  | _ => false

/-- The effect is `http.SetCookie`. -/
def Event.isSetCookie : Event → Bool
  | .SetCookie _ => true
  | _ => false

/-- The effect is the POST to the captcha verification service. -/
def Event.isPostForm : Event → Bool
  | .call (.PostForm _ _) _ => true
  | .invoke (.PostForm _ _) => true
  | _ => false

/-- The effect is `ac.r.JoinSlackChannel`. -/
def Event.isJoinSlackChannel : Event → Bool
  | .call (.JoinSlackChannel _) _ => true
  | .invoke (.JoinSlackChannel _) => true
  | _ => false

/-- The effect is a call to an external API (chat platform or captcha
service). -/
def Event.isExternalCall : Event → Bool
  | .call c _ => c.isExternalAPI
  | .invoke c => c.isExternalAPI
  | _ => false

/-- The effect is `ac.r.SetChannelsAndGroups` or `ac.q.PushConf`. -/
def Event.isPersist : Event → Bool
  | .call (.SetChannelsAndGroups _ _) _ => true
  | .invoke (.SetChannelsAndGroups _ _) => true
  | .call (.PushConf _ _) _ => true
  | .invoke (.PushConf _ _) => true
  | _ => false

/-- The error `match` and `save` write for a regexp that does not compile
with error text `err`. -/
def regexpError (err : String) : Error :=
  { ID := "bad_request", Status := 400, Title := "Bad Request",
    Detail := "Error parsing regexp - " ++ err }

/-- The error `loginOAuth` writes for an OAuth failure with text `detail`. -/
def oauthError (detail : String) : Error :=
  { ID := "oauth_err", Status := 401, Title := "Slack OAuth Error", Detail := detail }

/-- The guards under which a handler calls `WriteError`, read off the source:
a regexp that does not compile (`match`, `save`); a bad email, an empty
captcha response, an over-long email or a captcha the service does not accept
(`joinSlack`); an error parameter, an empty, unknown or expired state, or a
token exchange the chat platform refuses (`loginOAuth`).  The other handlers
never call it. -/
def rejects (w : World) : Request → Prop
  | .match_ req _ => req.Regexp ≠ "" ∧ ∃ e, w.Compile req.Regexp = .error e
  | .save req _ => req.Regexp ≠ "" ∧ ∃ e, w.Compile req.Regexp = .error e
  | .joinSlack req =>
      w.IsEmail req.Email = false ∨ req.CaptchaResponse = "" ∨ 128 < len req.Email ∨
      ∃ resp body gr,
        w.PostForm siteverify [("secret", [w.Options.Recaptcha]), ("response", [req.CaptchaResponse])]
          = .ok resp ∧
        resp.Body = .ok body ∧ w.Unmarshal body = .ok gr ∧ gr.Success = false
  | .loginOAuth f =>
      f "error" ≠ "" ∨ f "state" = "" ∨ f "code" = "" ∨
      (∃ e, w.OAuthState (f "state") = .error e) ∨
      (∃ s, w.OAuthState (f "state") = .ok s ∧ timeSub (w.now 0) s.Timestamp > 5 * Minute) ∨
      (∃ e, w.OAuthAccess w.Options.SlackClientID w.Options.SlackClientSecret (f "code") ""
              = .error e)
  | _ => False

/-! ## Sample environments -/

/-- Sample regular expressions: what Go's `regexp` answers for the patterns
`^dev`, the empty pattern and `(` on the channel and group names used in the
examples (no other pattern is used there). -/
def sampleCompile (s : String) : Except String Regexp :=
  if s = "^dev" then
    .ok ⟨fun name => name == "dev" || name == "dev-ops" || name == "dev-private"⟩
  else if s = "" then .ok ⟨fun _ => true⟩
  else .error "error parsing regexp: missing closing ): `(`"

/-- Sample stored configuration. -/
def sampleConf : Configuration :=
  { Channels := ["C1"], Groups := ["G1"], VerboseChannels := ["C2"], VerboseGroups := [],
    IM := true, VerboseIM := false, Regexp := "^dev", All := false }

/-- Sample user record. -/
def sampleUser : User :=
  { ID := "U1", Team := "T1", Name := "ann", Type_ := "slack", Status := "active",
    RealName := "Ann", Email := "ann@example.com", IsBot := false, IsAdmin := true,
    IsOwner := false, IsPrimaryOwner := false, IsRestricted := false,
    IsUltraRestricted := false, ExternalID := "UEXT", Token := "xoxp-1" }

/-- Sample environment in which every call succeeds; the login state `st-1`
was stored one minute before the request. -/
def okWorld : World where
  Options := { SlackClientID := "cid", SlackClientSecret := "secret", Env := "PROD",
               SessionKey := "key", Timeout := 60, Recaptcha := "rc" }
  sessionCookie := "SES"
  ErrBadRequest := { ID := "bad_request", Status := 400, Title := "Bad Request", Detail := "" }
  ErrBadContentRequest :=
    { ID := "bad_request", Status := 400, Title := "Bad Request", Detail := "bad content" }
  ErrBadCaptcha := { ID := "bad_captcha", Status := 400, Title := "Bad Captcha", Detail := "" }
  UserTypeSlack := "slack"
  UserStatusActive := "active"
  now := fun _ => 60000000000
  randomNew := fun k => .ok (if k = 0 then "aaaa" else "bbbb")
  Compile := sampleCompile
  IsEmail := fun s => s == "ann@example.com"
  AuthCodeURL := fun cid _ state => "https://slack.com/oauth/authorize?client_id=" ++ cid ++ "&state=" ++ state
  EncryptJSON := fun s _ => ("enc:" ++ s.UserID, none)
  ChannelsAndGroups := fun _ => .ok sampleConf
  SetChannelsAndGroups := fun _ _ => none
  OAuthState := fun s => if s = "st-1" then .ok { State := "st-1", Timestamp := 0 } else .error "not found"
  SetTeamAndUser := fun _ _ => none
  JoinSlackChannel := fun _ => none
  SlackNew := fun _ => none
  ChannelList := fun _ _ => .ok [⟨"C1", "general", true⟩, ⟨"C2", "dev", true⟩, ⟨"C3", "dev-ops", false⟩]
  GroupList := fun _ _ => .ok [⟨"G1", "dev-private"⟩, ⟨"G2", "board"⟩]
  OAuthAccess := fun _ _ _ _ => .ok ⟨"xoxp-1"⟩
  AuthTest := fun _ => .ok ⟨"UEXT"⟩
  TeamInfo := fun _ => .ok { ID := "TEXT", Name := "acme", EmailDomain := "example.com",
                             Domain := "acme", Plan := "std" }
  UserInfo := fun _ _ => .ok { ID := "UEXT", Name := "ann", RealName := "Ann",
                               Email := "ann@example.com", IsBot := false, IsAdmin := true,
                               IsOwner := false, IsPrimaryOwner := false, IsRestricted := false,
                               IsUltraRestricted := false }
  PostForm := fun _ _ => .ok ⟨.ok "ok-body"⟩
  Unmarshal := fun _ => .ok ⟨true, []⟩

/-- The sample environment ten minutes after the login state was stored. -/
def lateWorld : World := { okWorld with now := fun _ => 600000000000 }

/-- The sample environment with a chat platform that refuses the token
exchange. -/
def refusingWorld : World :=
  { okWorld with OAuthAccess := fun _ _ _ _ => .error "invalid_code" }

/-- The sample environment with a datastore that fails to write. -/
def readOnlyWorld : World :=
  { okWorld with SetChannelsAndGroups := fun _ _ => some "datastore unavailable" }

/-- Form values of a login callback carrying state `st-1` and code `c-1`. -/
def sampleForm (key : String) : String :=
  if key = "state" then "st-1" else if key = "code" then "c-1" else ""

/-- Form values of a login callback carrying a state the datastore does not
know. -/
def unknownStateForm (key : String) : String :=
  if key = "state" then "st-9" else if key = "code" then "c-1" else ""

/-! ## Entries of the info response -/

/-- The entry `info` builds for a channel. -/
def channelEntry (cfg : Configuration) (c : Channel) : idName :=
  { ID := c.ID, Name := c.Name, Selected := In cfg.Channels c.ID,
    Verbose := In cfg.VerboseChannels c.ID }

/-- The entry `info` builds for a group. -/
def groupEntry (cfg : Configuration) (g : Group) : idName :=
  { ID := g.ID, Name := g.Name, Selected := In cfg.Groups g.ID,
    Verbose := In cfg.VerboseGroups g.ID }

/-! ## Auxiliary facts -/

theorem length_le_utf8ByteSize_go (l : List Char) : l.length ≤ String.utf8ByteSize.go l := by
  induction l with
  | nil => simp [String.utf8ByteSize.go]
  | cons c cs ih =>
    have hc := Char.utf8Size_pos c
    simp only [String.utf8ByteSize.go, List.length_cons]
    omega

/-- A string has at least as many bytes as characters. -/
theorem length_le_len (s : String) : s.length ≤ len s := by
  cases s with
  | mk l => exact length_le_utf8ByteSize_go l

theorem Slice.elems_append {α : Type} (s : Slice α) (x : α) :
    (s.append x).elems = s.elems ++ [x] := by
  cases s <;> rfl

theorem info_channel_loop (cfg : Configuration) (chs : List Channel) (init : Slice idName) :
    (chs.foldl (fun res c =>
      if c.IsMember then
        let selected := In cfg.Channels c.ID
        let verbose := In cfg.VerboseChannels c.ID
        res.append { ID := c.ID, Name := c.Name, Selected := selected, Verbose := verbose }
      else res) init).elems
      = init.elems ++ (chs.filter (fun c => c.IsMember)).map (channelEntry cfg) := by
  induction chs generalizing init with
  | nil => simp
  | cons c cs ih =>
    rw [List.foldl_cons, ih]
    by_cases hm : c.IsMember = true
    · simp [hm, Slice.elems_append, channelEntry]
    · simp [hm]

theorem info_group_loop (cfg : Configuration) (grs : List Group) (init : Slice idName) :
    (grs.foldl (fun res g =>
      let selected := In cfg.Groups g.ID
      let verbose := In cfg.VerboseGroups g.ID
      res.append { ID := g.ID, Name := g.Name, Selected := selected, Verbose := verbose }) init).elems
      = init.elems ++ grs.map (groupEntry cfg) := by
  induction grs generalizing init with
  | nil => simp
  | cons g gs ih =>
    rw [List.foldl_cons, ih]
    simp [Slice.elems_append, groupEntry]

/-- The run of `info` when the datastore and the chat API answer. -/
theorem info_run (w : World) (u : User) (cfg : Configuration) (chs : List Channel)
    (grs : List Group)
    (hcfg : w.ChannelsAndGroups u.Team = .ok cfg) (hnew : w.SlackNew u.Token = none)
    (hch : w.ChannelList u.Token true = .ok chs) (hgr : w.GroupList u.Token true = .ok grs) :
    ∃ res : infoResponse,
      (info w u).trace =
        [ Event.call (.ChannelsAndGroups u.Team) none, Event.call (.SlackNew u.Token) none,
          Event.call (.ChannelList u.Token true) none, Event.call (.GroupList u.Token true) none,
          Event.Encode (.info res) ] ∧
      (info w u).outcome = .returned ∧
      res.Channels.elems = (chs.filter (fun c => c.IsMember)).map (channelEntry cfg) ∧
      res.Groups.elems = grs.map (groupEntry cfg) ∧
      res.IM = cfg.IM ∧ res.VerboseIM = cfg.VerboseIM ∧ res.Regexp = cfg.Regexp ∧
      res.All = cfg.All := by
  refine ⟨{
      Channels := chs.foldl (fun res c =>
        if c.IsMember then
          res.append { ID := c.ID, Name := c.Name, Selected := In cfg.Channels c.ID,
                       Verbose := In cfg.VerboseChannels c.ID }
        else res) none,
      Groups := grs.foldl (fun res g =>
        res.append { ID := g.ID, Name := g.Name, Selected := In cfg.Groups g.ID,
                     Verbose := In cfg.VerboseGroups g.ID }) none,
      IM := cfg.IM, VerboseIM := cfg.VerboseIM, Regexp := cfg.Regexp, All := cfg.All },
    ?_, ?_, ?_, ?_, rfl, rfl, rfl, rfl⟩
  · simp [info, hcfg, hnew, hch, hgr, call, emit, bind, Run.bind, pure, Run.pure, errOf, asResult]
  · simp [info, hcfg, hnew, hch, hgr, call, emit, bind, Run.bind, pure, Run.pure, errOf, asResult,
      Run.outcome]
  · simpa using info_channel_loop cfg chs none
  · simpa using info_group_loop cfg grs none

theorem match_channel_loop (re : Regexp) (chs : List Channel) (l : List String) :
    chs.foldl (fun (res : Slice String) c =>
      if c.IsMember then
        if re.MatchString c.Name then res.append c.Name else res
      else res) (some l)
      = some (l ++ (chs.filter (fun c => c.IsMember && re.MatchString c.Name)).map (fun c => c.Name)) := by
  induction chs generalizing l with
  | nil => simp
  | cons c cs ih =>
    rw [List.foldl_cons]
    by_cases hm : c.IsMember = true
    · by_cases hr : re.MatchString c.Name = true
      · simp only [hm, hr, if_true]
        rw [show Slice.append (some l) c.Name = some (l ++ [c.Name]) from rfl, ih]
        simp [hm, hr]
      · simp [hm, hr, ih]
    · simp [hm, ih]

theorem match_group_loop (re : Regexp) (grs : List Group) (l : List String) :
    grs.foldl (fun (res : Slice String) g =>
      if re.MatchString g.Name then res.append g.Name else res) (some l)
      = some (l ++ (grs.filter (fun g => re.MatchString g.Name)).map (fun g => g.Name)) := by
  induction grs generalizing l with
  | nil => simp
  | cons g gs ih =>
    rw [List.foldl_cons]
    by_cases hr : re.MatchString g.Name = true
    · simp only [hr, if_true]
      rw [show Slice.append (some l) g.Name = some (l ++ [g.Name]) from rfl, ih]
      simp [hr]
    · simp [hr, ih]

/-! ## Error policy of the single handlers -/

theorem info_policy (w : World) (u : User) :
    (∀ c e, Event.call c (some e) ∈ (info w u).trace → (info w u).outcome = .panicked e) ∧
    (∀ err, Event.WriteError err ∉ (info w u).trace) := by
  unfold info
  cases h1 : w.ChannelsAndGroups u.Team with
  | error e => simp [*, emit, call, goPanic, errOf, asResult, bind, Run.bind, pure, Run.pure, Run.outcome]
  | ok cfg =>
    cases h2 : w.SlackNew u.Token with
    | some e => simp [*, emit, call, goPanic, errOf, asResult, bind, Run.bind, pure, Run.pure, Run.outcome]
    | none =>
      cases h3 : w.ChannelList u.Token true with
      | error e => simp [*, emit, call, goPanic, errOf, asResult, bind, Run.bind, pure, Run.pure, Run.outcome]
      | ok chs =>
        cases h4 : w.GroupList u.Token true with
        | error e => simp [*, emit, call, goPanic, errOf, asResult, bind, Run.bind, pure, Run.pure, Run.outcome]
        | ok grs => simp [*, emit, call, goPanic, errOf, asResult, bind, Run.bind, pure, Run.pure, Run.outcome]

theorem match_policy (w : World) (req : regexpMatch) (u : User) :
    (∀ c e, Event.call c (some e) ∈ (match_ w req u).trace →
      (match_ w req u).outcome = .panicked e) ∧
    (∀ err, Event.WriteError err ∈ (match_ w req u).trace →
      req.Regexp ≠ "" ∧ ∃ e, w.Compile req.Regexp = .error e) := by
  unfold match_
  by_cases h0 : req.Regexp = ""
  · simp [*, emit, bind, Run.bind, pure, Run.pure, Run.outcome]
  · cases h1 : w.Compile req.Regexp with
    | error e => simp [*, WriteError, emit, bind, Run.bind, pure, Run.pure, Run.outcome]
    | ok re =>
      cases h2 : w.SlackNew u.Token with
      | some e => simp [*, emit, call, goPanic, errOf, asResult, bind, Run.bind, pure, Run.pure, Run.outcome]
      | none =>
        cases h3 : w.ChannelList u.Token true with
        | error e => simp [*, emit, call, goPanic, errOf, asResult, bind, Run.bind, pure, Run.pure, Run.outcome]
        | ok chs =>
          cases h4 : w.GroupList u.Token true with
          | error e => simp [*, emit, call, goPanic, errOf, asResult, bind, Run.bind, pure, Run.pure, Run.outcome]
          | ok grs => simp [*, emit, call, goPanic, errOf, asResult, bind, Run.bind, pure, Run.pure, Run.outcome]

theorem save_policy (w : World) (req : Configuration) (u : User) :
    (∀ c e, Event.call c (some e) ∈ (save w req u).trace →
      (save w req u).outcome = .panicked e) ∧
    (∀ err, Event.WriteError err ∈ (save w req u).trace →
      req.Regexp ≠ "" ∧ ∃ e, w.Compile req.Regexp = .error e) := by
  unfold save
  cases h2 : w.SetChannelsAndGroups u.Team req <;>
  by_cases h0 : req.Regexp = "" <;>
  cases h1 : w.Compile req.Regexp <;>
  simp [*, WriteError, emit, call, goPanic, errOf, asResult, bind, Run.bind, pure, Run.pure, Run.outcome]

theorem joinSlack_policy (w : World) (req : join) :
    (∀ c e, Event.call c (some e) ∈ (joinSlack w req).trace →
      (joinSlack w req).outcome = .panicked e) ∧
    (∀ err, Event.WriteError err ∈ (joinSlack w req).trace → rejects w (.joinSlack req)) := by
  unfold joinSlack
  by_cases h0 : (!w.IsEmail req.Email || req.CaptchaResponse == "" || decide (len req.Email > 128)) = true
  · have hr : rejects w (.joinSlack req) := by
      simp only [Bool.or_eq_true, Bool.not_eq_true', beq_iff_eq, decide_eq_true_eq] at h0
      unfold rejects
      tauto
    simp [h0, hr, WriteError, emit, bind, Run.bind, pure, Run.pure, Run.outcome]
  · rw [if_neg h0]
    cases h1 : w.PostForm siteverify
        [("secret", [w.Options.Recaptcha]), ("response", [req.CaptchaResponse])] with
    | error e => simp [*, WriteError, emit, call, goPanic, errOf, asResult, bind, Run.bind, pure, Run.pure, Run.outcome, deferred]
    | ok resp =>
      cases h2 : resp.Body with
      | error e => simp [*, WriteError, emit, call, goPanic, errOf, asResult, bind, Run.bind, pure, Run.pure, Run.outcome, deferred]
      | ok body =>
        cases h3 : w.Unmarshal body with
        | error e => simp [*, WriteError, emit, call, goPanic, errOf, asResult, bind, Run.bind, pure, Run.pure, Run.outcome, deferred]
        | ok gr =>
          by_cases h4 : gr.Success = true
          · cases h5 : w.JoinSlackChannel req.Email <;>
            simp [*, WriteError, emit, call, goPanic, errOf, asResult, bind, Run.bind, pure, Run.pure, Run.outcome, deferred]
          · have hr : rejects w (.joinSlack req) := by
              unfold rejects
              refine Or.inr (Or.inr (Or.inr ⟨resp, body, gr, h1, h2, h3, ?_⟩))
              simpa using h4
            simp [*, WriteError, emit, call, goPanic, errOf, asResult, bind, Run.bind, pure, Run.pure, Run.outcome, deferred]

theorem small_handlers_policy (w : World) (u : User) :
    ((∀ c e, Event.call c (some e) ∈ (initiateOAuth w).trace →
      (initiateOAuth w).outcome = .panicked e) ∧
     (∀ err, Event.WriteError err ∉ (initiateOAuth w).trace)) ∧
    ((∀ c e, Event.call c (some e) ∉ (logout w).trace) ∧
     (∀ err, Event.WriteError err ∉ (logout w).trace)) ∧
    ((∀ c e, Event.call c (some e) ∉ (currUser w u).trace) ∧
     (∀ err, Event.WriteError err ∉ (currUser w u).trace)) := by
  refine ⟨?_, ?_, ?_⟩
  · unfold initiateOAuth
    cases h1 : w.randomNew 0 <;>
    simp [*, emit, call, goPanic, errOf, bind, Run.bind, pure, Run.pure, Run.outcome]
  · simp [logout, emit, bind, Run.bind, pure, Run.pure]
  · simp [currUser, emit, bind, Run.bind, pure, Run.pure]

theorem loginOAuth_policy (w : World) (f : String → String) :
    (∀ c e, Event.call c (some e) ∈ (loginOAuth w f).trace →
        (c.isDatastore || c.isExternalAPI) = true →
        ((∃ s, c = .OAuthState s) ∧ (loginOAuth w f).outcome = .returned ∧
            Event.WriteError w.ErrBadContentRequest ∈ (loginOAuth w f).trace) ∨
        ((∃ a b d g, c = .OAuthAccess a b d g) ∧ (loginOAuth w f).outcome = .returned ∧
            Event.WriteError (oauthError e) ∈ (loginOAuth w f).trace) ∨
        ((∀ s, c ≠ .OAuthState s) ∧ (∀ a b d g, c ≠ .OAuthAccess a b d g) ∧
            (loginOAuth w f).outcome = .panicked e)) ∧
    (∀ err, Event.WriteError err ∈ (loginOAuth w f).trace → rejects w (.loginOAuth f)) := by
  unfold loginOAuth
  by_cases h1 : f "error" = ""
  · by_cases h2 : f "state" = "" ∨ f "code" = ""
    · simp [h1, h2, WriteError, emit, bind, Run.bind, pure, Run.pure, Run.outcome, rejects]
      tauto
    · have h2a : f "state" ≠ "" := fun h => h2 (Or.inl h)
      have h2b : f "code" ≠ "" := fun h => h2 (Or.inr h)
      cases h3 : w.OAuthState (f "state") with
      | error e3 => simp [*, WriteError, emit, call, goPanic, errOf, asResult, bind, Run.bind, pure, Run.pure, Run.outcome, rejects, oauthError, Call.isDatastore, Call.isExternalAPI]
      | ok st =>
        by_cases hexp : timeSub (w.now 0) st.Timestamp > 5 * Minute
        all_goals
          cases h4 : w.OAuthAccess w.Options.SlackClientID w.Options.SlackClientSecret (f "code") "" with
          | error e => simp [*, WriteError, emit, call, goPanic, errOf, asResult, bind, Run.bind, pure, Run.pure, Run.outcome, rejects, oauthError, Call.isDatastore, Call.isExternalAPI]
          | ok token =>
            cases h5 : w.randomNew 0 with
            | error e => simp [*, WriteError, emit, call, goPanic, errOf, asResult, bind, Run.bind, pure, Run.pure, Run.outcome, rejects, oauthError, Call.isDatastore, Call.isExternalAPI]
            | ok userID =>
              cases h6 : w.randomNew 1 with
              | error e => simp [*, WriteError, emit, call, goPanic, errOf, asResult, bind, Run.bind, pure, Run.pure, Run.outcome, rejects, oauthError, Call.isDatastore, Call.isExternalAPI]
              | ok teamID =>
                cases h7 : w.SlackNew token.AccessToken with
                | some e => simp [*, WriteError, emit, call, goPanic, errOf, asResult, bind, Run.bind, pure, Run.pure, Run.outcome, rejects, oauthError, Call.isDatastore, Call.isExternalAPI]
                | none =>
                  cases h8 : w.AuthTest token.AccessToken with
                  | error e => simp [*, WriteError, emit, call, goPanic, errOf, asResult, bind, Run.bind, pure, Run.pure, Run.outcome, rejects, oauthError, Call.isDatastore, Call.isExternalAPI]
                  | ok test =>
                    cases h9 : w.TeamInfo token.AccessToken with
                    | error e => simp [*, WriteError, emit, call, goPanic, errOf, asResult, bind, Run.bind, pure, Run.pure, Run.outcome, rejects, oauthError, Call.isDatastore, Call.isExternalAPI]
                    | ok team =>
                      cases h10 : w.UserInfo token.AccessToken test.UserID with
                      | error e => simp [*, WriteError, emit, call, goPanic, errOf, asResult, bind, Run.bind, pure, Run.pure, Run.outcome, rejects, oauthError, Call.isDatastore, Call.isExternalAPI]
                      | ok user =>
                        generalize hT : ({ ID := "T" ++ teamID, Name := team.Name, EmailDomain := team.EmailDomain, Domain := team.Domain, Plan := team.Plan, ExternalID := team.ID } : Team) = ourTeam
                        cases h11 : w.SetTeamAndUser ourTeam { ID := "U" ++ userID, Team := "T" ++ teamID, Name := user.Name, Type_ := w.UserTypeSlack, Status := w.UserStatusActive, RealName := user.RealName, Email := user.Email, IsBot := user.IsBot, IsAdmin := user.IsAdmin, IsOwner := user.IsOwner, IsPrimaryOwner := user.IsPrimaryOwner, IsRestricted := user.IsRestricted, IsUltraRestricted := user.IsUltraRestricted, ExternalID := user.ID, Token := token.AccessToken } with
                        | some e => simp [*, WriteError, emit, call, goPanic, errOf, asResult, bind, Run.bind, pure, Run.pure, Run.outcome, rejects, oauthError, Call.isDatastore, Call.isExternalAPI]
                        | none =>
                          simp [*, WriteError, emit, call, goPanic, errOf, asResult, bind, Run.bind, pure, Run.pure, Run.outcome, rejects, oauthError, Call.isDatastore, Call.isExternalAPI]
                          all_goals (intro c e hc _; subst hc; simp)
  · simp [h1, WriteError, emit, bind, Run.bind, pure, Run.pure, Run.outcome, rejects]

/-- The two error results `loginOAuth` answers itself: a failed lookup of the
stored state and a refused token exchange. -/
theorem loginOAuth_answers_errors (w : World) (f : String → String)
    (h1 : f "error" = "") (h2 : f "state" ≠ "") (h3 : f "code" ≠ "") :
    (∀ e, w.OAuthState (f "state") = .error e →
      (loginOAuth w f).trace =
        [ Event.call (.OAuthState (f "state")) (some e),
          Event.WriteError w.ErrBadContentRequest ] ∧
      (loginOAuth w f).outcome = .returned) ∧
    (∀ st e, w.OAuthState (f "state") = .ok st →
      w.OAuthAccess w.Options.SlackClientID w.Options.SlackClientSecret (f "code") ""
        = .error e →
      (loginOAuth w f).outcome = .returned ∧
      (∃ pre, (loginOAuth w f).trace = pre ++
        [ Event.call
            (.OAuthAccess w.Options.SlackClientID w.Options.SlackClientSecret (f "code") "")
            (some e),
          Event.WriteError (oauthError e) ]) ∧
      (¬ timeSub (w.now 0) st.Timestamp > 5 * Minute →
        (loginOAuth w f).trace =
          [ Event.call (.OAuthState (f "state")) none,
            Event.call
              (.OAuthAccess w.Options.SlackClientID w.Options.SlackClientSecret (f "code") "")
              (some e),
            Event.WriteError (oauthError e) ])) := by
  refine ⟨fun e he => ?_, fun st e hst he => ?_⟩
  · simp [loginOAuth, h1, h2, h3, he, WriteError, emit, call, errOf, bind, Run.bind, pure,
      Run.pure, Run.outcome]
  · by_cases hexp : timeSub (w.now 0) st.Timestamp > 5 * Minute
    · refine ⟨?_, ⟨[Event.call (.OAuthState (f "state")) none,
        Event.WriteError w.ErrBadRequest], ?_⟩, fun hn => absurd hexp hn⟩
      · simp [loginOAuth, h1, h2, h3, hst, he, hexp, WriteError, emit, call, errOf, bind,
          Run.bind, pure, Run.pure, Run.outcome]
      · simp [loginOAuth, h1, h2, h3, hst, he, hexp, WriteError, emit, call, errOf, bind,
          Run.bind, pure, Run.pure, oauthError]
    · refine ⟨?_, ⟨[Event.call (.OAuthState (f "state")) none], ?_⟩, fun _ => ?_⟩
      · simp [loginOAuth, h1, h2, h3, hst, he, hexp, WriteError, emit, call, errOf, bind,
          Run.bind, pure, Run.pure, Run.outcome]
      · simp [loginOAuth, h1, h2, h3, hst, he, hexp, WriteError, emit, call, errOf, bind,
          Run.bind, pure, Run.pure, oauthError]
      · simp [loginOAuth, h1, h2, h3, hst, he, hexp, WriteError, emit, call, errOf, bind,
          Run.bind, pure, Run.pure, oauthError]

/-! ## The claims -/

/-- C1 (the code departs from the claim): a login whose stored state is ten
minutes old.  `loginOAuth` writes `ErrBadRequest` and then goes on: it
exchanges the code for a token, stores the team and user records, sets the
session cookie and redirects to `/conf`. -/
theorem loginOAuth_expired_state_continues :
    timeSub (lateWorld.now 0) 0 > 5 * Minute ∧
    sampleForm "error" = "" ∧ sampleForm "state" = "st-1" ∧ sampleForm "code" = "c-1" ∧
    lateWorld.OAuthState "st-1" = .ok { State := "st-1", Timestamp := 0 } ∧
    (loginOAuth lateWorld sampleForm).outcome = .returned ∧
    (loginOAuth lateWorld sampleForm).trace =
      [ Event.call (.OAuthState "st-1") none,
        Event.WriteError lateWorld.ErrBadRequest,
        Event.call (.OAuthAccess "cid" "secret" "c-1" "") none,
        Event.call .RandomNew none,
        Event.call .RandomNew none,
        Event.call (.SlackNew "xoxp-1") none,
        Event.call (.AuthTest "xoxp-1") none,
        Event.call (.TeamInfo "xoxp-1") none,
        Event.call (.UserInfo "xoxp-1" "UEXT") none,
        Event.call (.SetTeamAndUser
          { ID := "Tbbbb", Name := "acme", EmailDomain := "example.com", Domain := "acme",
            Plan := "std", ExternalID := "TEXT" }
          { sampleUser with ID := "Uaaaa", Team := "Tbbbb" }) none,
        Event.Log "info" "User ann logged in\n",
        Event.call (.EncryptJSON
          { Name := "ann", UserID := "Uaaaa", Timestamp := 600000000000 } "key") none,
        Event.SetCookie {
          Name := "SES", Value := "enc:Uaaaa", Path := "/", Expires := 4200000000000,
          MaxAge := 3600, Secure := true, HttpOnly := true },
        Event.Redirect "/conf" 302 ] := by
  refine ⟨by decide, by decide, by decide, by decide, rfl, by decide, by decide⟩

/-- C2: for a non-empty regexp that does not compile, `match` and `save` each
write exactly one error, with ID `bad_request`, status 400 and detail
`Error parsing regexp - ` followed by the compile error, and return; nothing
else is written. -/
theorem regexp_error_response (w : World) (req : regexpMatch) (conf : Configuration) (u : User)
    (e e2 : String)
    (hne : req.Regexp ≠ "") (hc : w.Compile req.Regexp = .error e)
    (hne2 : conf.Regexp ≠ "") (hc2 : w.Compile conf.Regexp = .error e2) :
    (match_ w req u).trace =
        [Event.WriteError
          ({ ID := "bad_request", Status := 400, Title := "Bad Request",
             Detail := "Error parsing regexp - " ++ e } : Error)] ∧
      (match_ w req u).outcome = .returned ∧
    (save w conf u).trace =
        [Event.WriteError
          ({ ID := "bad_request", Status := 400, Title := "Bad Request",
             Detail := "Error parsing regexp - " ++ e2 } : Error)] ∧
      (save w conf u).outcome = .returned := by
  simp [match_, save, hne, hc, hne2, hc2, WriteError, emit, bind, Run.bind, pure, Run.pure,
    Run.outcome]

/-- C2 at the pattern `(`, which does not compile. -/
theorem regexp_error_response_witness :
    (match_ okWorld ⟨"("⟩ sampleUser).trace =
        [Event.WriteError
          ({ ID := "bad_request", Status := 400, Title := "Bad Request",
             Detail := "Error parsing regexp - " ++
               "error parsing regexp: missing closing ): `(`" } : Error)] ∧
      (match_ okWorld ⟨"("⟩ sampleUser).outcome = .returned ∧
    (save okWorld { sampleConf with Regexp := "(" } sampleUser).trace =
        [Event.WriteError
          ({ ID := "bad_request", Status := 400, Title := "Bad Request",
             Detail := "Error parsing regexp - " ++
               "error parsing regexp: missing closing ): `(`" } : Error)] ∧
      (save okWorld { sampleConf with Regexp := "(" } sampleUser).outcome = .returned :=
  regexp_error_response okWorld ⟨"("⟩ { sampleConf with Regexp := "(" } sampleUser _ _
    (by decide) rfl (by decide) rfl

/-- C3: when the datastore returns the configuration `cfg` and the chat API
returns the channels `chs` and the groups `grs`, `info` encodes a response
whose channel entries are, in API order, one per member channel of `chs`, each
with `Selected` true exactly when the channel's ID is in `cfg.Channels` and
`Verbose` true exactly when it is in `cfg.VerboseChannels`, and whose group
entries are one per group of `grs`, likewise against `cfg.Groups` and
`cfg.VerboseGroups`; hence every entry of the response has its flags equal to
membership of its ID in the stored sets; and `IM`, `VerboseIM`, `Regexp` and
`All` are those of `cfg`. -/
theorem info_flags_match_configuration (w : World) (u : User) (cfg : Configuration)
    (chs : List Channel) (grs : List Group)
    (hcfg : w.ChannelsAndGroups u.Team = .ok cfg) (hnew : w.SlackNew u.Token = none)
    (hch : w.ChannelList u.Token true = .ok chs) (hgr : w.GroupList u.Token true = .ok grs) :
    ∃ res : infoResponse,
      (info w u).trace =
        [ Event.call (.ChannelsAndGroups u.Team) none, Event.call (.SlackNew u.Token) none,
          Event.call (.ChannelList u.Token true) none, Event.call (.GroupList u.Token true) none,
          Event.Encode (.info res) ] ∧
      (info w u).outcome = .returned ∧
      res.Channels.elems =
        (chs.filter (fun c => c.IsMember)).map (fun c =>
          ({ ID := c.ID, Name := c.Name,
             Selected := decide (c.ID ∈ cfg.Channels),
             Verbose := decide (c.ID ∈ cfg.VerboseChannels) } : idName)) ∧
      res.Groups.elems =
        grs.map (fun g =>
          ({ ID := g.ID, Name := g.Name,
             Selected := decide (g.ID ∈ cfg.Groups),
             Verbose := decide (g.ID ∈ cfg.VerboseGroups) } : idName)) ∧
      (∀ e ∈ res.Channels.elems,
        (e.Selected = true ↔ e.ID ∈ cfg.Channels) ∧
        (e.Verbose = true ↔ e.ID ∈ cfg.VerboseChannels)) ∧
      (∀ e ∈ res.Groups.elems,
        (e.Selected = true ↔ e.ID ∈ cfg.Groups) ∧
        (e.Verbose = true ↔ e.ID ∈ cfg.VerboseGroups)) ∧
      res.IM = cfg.IM ∧ res.VerboseIM = cfg.VerboseIM ∧ res.Regexp = cfg.Regexp ∧
      res.All = cfg.All := by
  obtain ⟨res, ht, ho, hcs, hgs, h1, h2, h3, h4⟩ := info_run w u cfg chs grs hcfg hnew hch hgr
  refine ⟨res, ht, ho, ?_, ?_, ?_, ?_, h1, h2, h3, h4⟩
  · rw [hcs]
    apply List.map_congr_left
    intro c _
    simp [channelEntry, In]
  · rw [hgs]
    apply List.map_congr_left
    intro g _
    simp [groupEntry, In]
  · intro e he
    rw [hcs] at he
    obtain ⟨c, -, rfl⟩ := List.mem_map.mp he
    simp [channelEntry, In]
  · intro e he
    rw [hgs] at he
    obtain ⟨g, -, rfl⟩ := List.mem_map.mp he
    simp [groupEntry, In]

/-- C3 at the sample configuration, channels and groups: `C1` is selected,
`C2` is verbose, the non-member `C3` has no entry, `G1` is selected. -/
theorem info_flags_match_configuration_witness :
    ∃ res : infoResponse,
      (info okWorld sampleUser).trace =
        [ Event.call (.ChannelsAndGroups "T1") none, Event.call (.SlackNew "xoxp-1") none,
          Event.call (.ChannelList "xoxp-1" true) none, Event.call (.GroupList "xoxp-1" true) none,
          Event.Encode (.info res) ] ∧
      (info okWorld sampleUser).outcome = .returned ∧
      res.Channels.elems =
        [ ({ ID := "C1", Name := "general", Selected := true, Verbose := false } : idName),
          ({ ID := "C2", Name := "dev", Selected := false, Verbose := true } : idName) ] ∧
      res.Groups.elems =
        [ ({ ID := "G1", Name := "dev-private", Selected := true, Verbose := false } : idName),
          ({ ID := "G2", Name := "board", Selected := false, Verbose := false } : idName) ] ∧
      res.IM = true ∧ res.VerboseIM = false ∧ res.Regexp = "^dev" ∧ res.All = false := by
  obtain ⟨res, ht, ho, hcs, hgs, -, -, h1, h2, h3, h4⟩ :=
    info_flags_match_configuration okWorld sampleUser sampleConf
      [⟨"C1", "general", true⟩, ⟨"C2", "dev", true⟩, ⟨"C3", "dev-ops", false⟩]
      [⟨"G1", "dev-private"⟩, ⟨"G2", "board"⟩] rfl rfl rfl rfl
  refine ⟨res, ht, ho, ?_, ?_, h1, h2, h3, h4⟩
  · rw [hcs]
    decide
  · rw [hgs]
    decide

/-- C4: a join request whose email is not a valid address, or whose captcha
response is empty, or whose email has more than 128 characters, gets
`ErrBadRequest` and nothing else: `joinSlack` returns without posting to the
captcha service and without calling `JoinSlackChannel`. -/
theorem joinSlack_rejects_bad_request (w : World) (req : join)
    (h : w.IsEmail req.Email = false ∨ req.CaptchaResponse = "" ∨ 128 < req.Email.length) :
    (joinSlack w req).trace = [Event.WriteError w.ErrBadRequest] ∧
    (joinSlack w req).outcome = .returned ∧
    (joinSlack w req).trace.any Event.isPostForm = false ∧
    (joinSlack w req).trace.any Event.isJoinSlackChannel = false := by
  have hb : (!w.IsEmail req.Email || req.CaptchaResponse == "" ||
      decide (len req.Email > 128)) = true := by
    rcases h with h | h | h
    · simp [h]
    · simp [h]
    · have hle := length_le_len req.Email
      have h2 : len req.Email > 128 := by omega
      simp [h2]
  have ht : joinSlack w req = ⟨[Event.WriteError w.ErrBadRequest], .next ()⟩ := by
    unfold joinSlack
    rw [if_pos hb]
    rfl
  rw [ht]
  simp [Run.outcome, Event.isPostForm, Event.isJoinSlackChannel]

/-- C4 at a request with a valid email and an empty captcha response. -/
theorem joinSlack_rejects_bad_request_witness :
    (okWorld.IsEmail "ann@example.com" = true ∧ ("" : String) = "") ∧
    (joinSlack okWorld ⟨"ann@example.com", ""⟩).trace = [Event.WriteError okWorld.ErrBadRequest] ∧
    (joinSlack okWorld ⟨"ann@example.com", ""⟩).outcome = .returned ∧
    (joinSlack okWorld ⟨"ann@example.com", ""⟩).trace.any Event.isPostForm = false ∧
    (joinSlack okWorld ⟨"ann@example.com", ""⟩).trace.any Event.isJoinSlackChannel = false :=
  ⟨⟨by decide, rfl⟩,
    joinSlack_rejects_bad_request okWorld ⟨"ann@example.com", ""⟩ (Or.inr (Or.inl rfl))⟩

/-- C5 (as stated, refuted): the chat platform refuses the token exchange.
`loginOAuth` turns the error of `slack.OAuthAccess` into a 401 `oauth_err`
response and returns; it does not panic. -/
theorem loginOAuth_refused_exchange_returns_401 :
    refusingWorld.OAuthAccess "cid" "secret" "c-1" "" = .error "invalid_code" ∧
    (Call.OAuthAccess "cid" "secret" "c-1" "").isExternalAPI = true ∧
    (loginOAuth refusingWorld sampleForm).trace =
      [ Event.call (.OAuthState "st-1") none,
        Event.call (.OAuthAccess "cid" "secret" "c-1" "") (some "invalid_code"),
        Event.WriteError
          ({ ID := "oauth_err", Status := 401, Title := "Slack OAuth Error",
             Detail := "invalid_code" } : Error) ] ∧
    (loginOAuth refusingWorld sampleForm).outcome = .returned := by
  refine ⟨rfl, by decide, by decide, by decide⟩

/-- C5 (amended): in every handler, an error returned to the handler by a
datastore call or an external API call makes the handler panic with that
error, with two exceptions, both in `loginOAuth`, where the handler returns
normally: an error of the stored-state lookup is answered with
`ErrBadContentRequest`, and an error of the token exchange
`slack.OAuthAccess` is answered with a 401 `oauth_err` error carrying the
error text.  A structured error is written only when the request is rejected:
a regexp that does not compile, a bad email or captcha, an OAuth error
parameter, an empty, unknown or expired state, or a refused token exchange.

The four parts: (1) what follows each such error, by handler and call; (2)
when a structured error is written; (3) and (4) the runs of `loginOAuth` when
the lookup fails and when the exchange is refused. -/
theorem error_policy (w : World) (r : Request) :
    (∀ c e, Event.call c (some e) ∈ (serve w r).trace →
        (c.isDatastore || c.isExternalAPI) = true →
        ((∃ f s, r = .loginOAuth f ∧ c = .OAuthState s) ∧
            (serve w r).outcome = .returned ∧
            Event.WriteError w.ErrBadContentRequest ∈ (serve w r).trace) ∨
        ((∃ f a b d g, r = .loginOAuth f ∧ c = .OAuthAccess a b d g) ∧
            (serve w r).outcome = .returned ∧
            Event.WriteError
              ({ ID := "oauth_err", Status := 401, Title := "Slack OAuth Error",
                 Detail := e } : Error) ∈ (serve w r).trace) ∨
        (¬ ((∃ f, r = .loginOAuth f) ∧
              ((∃ s, c = .OAuthState s) ∨ ∃ a b d g, c = .OAuthAccess a b d g)) ∧
            (serve w r).outcome = .panicked e)) ∧
    (∀ err, Event.WriteError err ∈ (serve w r).trace → rejects w r) ∧
    (∀ f e, f "error" = "" → f "state" ≠ "" → f "code" ≠ "" →
      w.OAuthState (f "state") = .error e →
      (serve w (.loginOAuth f)).trace =
        [ Event.call (.OAuthState (f "state")) (some e),
          Event.WriteError w.ErrBadContentRequest ] ∧
      (serve w (.loginOAuth f)).outcome = .returned) ∧
    (∀ f st e, f "error" = "" → f "state" ≠ "" → f "code" ≠ "" →
      w.OAuthState (f "state") = .ok st →
      w.OAuthAccess w.Options.SlackClientID w.Options.SlackClientSecret (f "code") ""
        = .error e →
      (serve w (.loginOAuth f)).outcome = .returned ∧
      (∃ pre, (serve w (.loginOAuth f)).trace = pre ++
        [ Event.call
            (.OAuthAccess w.Options.SlackClientID w.Options.SlackClientSecret (f "code") "")
            (some e),
          Event.WriteError
            ({ ID := "oauth_err", Status := 401, Title := "Slack OAuth Error",
               Detail := e } : Error) ]) ∧
      (¬ timeSub (w.now 0) st.Timestamp > 5 * Minute →
        (serve w (.loginOAuth f)).trace =
          [ Event.call (.OAuthState (f "state")) none,
            Event.call
              (.OAuthAccess w.Options.SlackClientID w.Options.SlackClientSecret (f "code") "")
              (some e),
            Event.WriteError
              ({ ID := "oauth_err", Status := 401, Title := "Slack OAuth Error",
                 Detail := e } : Error) ])) := by
  refine ⟨?_, ?_, fun f e h1 h2 h3 he => (loginOAuth_answers_errors w f h1 h2 h3).1 e he,
    fun f st e h1 h2 h3 hst he => (loginOAuth_answers_errors w f h1 h2 h3).2 st e hst he⟩
  · intro c e hc hk
    cases r with
    | info u =>
      exact Or.inr (Or.inr ⟨fun h => (by obtain ⟨⟨f, hf⟩, -⟩ := h; cases hf),
        (info_policy w u).1 c e hc⟩)
    | match_ req u =>
      exact Or.inr (Or.inr ⟨fun h => (by obtain ⟨⟨f, hf⟩, -⟩ := h; cases hf),
        (match_policy w req u).1 c e hc⟩)
    | save req u =>
      exact Or.inr (Or.inr ⟨fun h => (by obtain ⟨⟨f, hf⟩, -⟩ := h; cases hf),
        (save_policy w req u).1 c e hc⟩)
    | joinSlack req =>
      exact Or.inr (Or.inr ⟨fun h => (by obtain ⟨⟨f, hf⟩, -⟩ := h; cases hf),
        (joinSlack_policy w req).1 c e hc⟩)
    | initiateOAuth =>
      exact Or.inr (Or.inr ⟨fun h => (by obtain ⟨⟨f, hf⟩, -⟩ := h; cases hf),
        (small_handlers_policy w sampleUser).1.1 c e hc⟩)
    | loginOAuth f =>
      rcases (loginOAuth_policy w f).1 c e hc hk with ⟨⟨s, hs⟩, ho, hw⟩ | ⟨⟨a, b, d, g, hs⟩, ho, hw⟩ |
        ⟨hn1, hn2, ho⟩
      · exact Or.inl ⟨⟨f, s, rfl, hs⟩, ho, hw⟩
      · exact Or.inr (Or.inl ⟨⟨f, a, b, d, g, rfl, hs⟩, ho, hw⟩)
      · refine Or.inr (Or.inr ⟨fun h => ?_, ho⟩)
        rcases h.2 with ⟨s, hs⟩ | ⟨a, b, d, g, hs⟩
        · exact hn1 s hs
        · exact hn2 a b d g hs
    | logout => exact absurd hc ((small_handlers_policy w sampleUser).2.1.1 c e)
    | currUser u => exact absurd hc ((small_handlers_policy w u).2.2.1 c e)
  · intro err he
    cases r with
    | info u => exact absurd he ((info_policy w u).2 err)
    | match_ req u => exact (match_policy w req u).2 err he
    | save req u => exact (save_policy w req u).2 err he
    | joinSlack req => exact (joinSlack_policy w req).2 err he
    | initiateOAuth => exact absurd he ((small_handlers_policy w sampleUser).1.2 err)
    | loginOAuth f => exact (loginOAuth_policy w f).2 err he
    | logout => exact absurd he ((small_handlers_policy w sampleUser).2.1.2 err)
    | currUser u => exact absurd he ((small_handlers_policy w u).2.2.2 err)

/-- C5 (amended) at a refused token exchange, an unknown state and a failing
datastore write: the first two are answered and return, the third panics. -/
theorem error_policy_witness :
    ((serve refusingWorld (.loginOAuth sampleForm)).outcome = .returned ∧
      (serve refusingWorld (.loginOAuth sampleForm)).trace =
        [ Event.call (.OAuthState "st-1") none,
          Event.call (.OAuthAccess "cid" "secret" "c-1" "") (some "invalid_code"),
          Event.WriteError
            ({ ID := "oauth_err", Status := 401, Title := "Slack OAuth Error",
               Detail := "invalid_code" } : Error) ]) ∧
    ((serve okWorld (.loginOAuth unknownStateForm)).trace =
        [ Event.call (.OAuthState "st-9") (some "not found"),
          Event.WriteError okWorld.ErrBadContentRequest ] ∧
      (serve okWorld (.loginOAuth unknownStateForm)).outcome = .returned) ∧
    (serve readOnlyWorld (.save sampleConf sampleUser)).outcome
        = .panicked "datastore unavailable" ∧
    rejects refusingWorld (.loginOAuth sampleForm) :=
  ⟨⟨((error_policy refusingWorld (.loginOAuth sampleForm)).2.2.2 sampleForm
        { State := "st-1", Timestamp := 0 } "invalid_code" rfl (by decide) (by decide) rfl rfl).1,
    ((error_policy refusingWorld (.loginOAuth sampleForm)).2.2.2 sampleForm
        { State := "st-1", Timestamp := 0 } "invalid_code" rfl (by decide) (by decide) rfl rfl).2.2
        (by decide)⟩,
   (error_policy okWorld (.loginOAuth unknownStateForm)).2.2.1 unknownStateForm "not found"
      rfl (by decide) (by decide) rfl,
   ((error_policy readOnlyWorld (.save sampleConf sampleUser)).1
      (.SetChannelsAndGroups "T1" sampleConf) "datastore unavailable" (by decide) (by decide)).elim
      (fun h => by obtain ⟨⟨f, s, hf, -⟩, -⟩ := h; cases hf)
      (fun h => h.elim (fun h => by obtain ⟨⟨f, a, b, d, g, hf, -⟩, -⟩ := h; cases hf)
        (fun h => h.2)),
   (error_policy refusingWorld (.loginOAuth sampleForm)).2.1
      ({ ID := "oauth_err", Status := 401, Title := "Slack OAuth Error",
         Detail := "invalid_code" } : Error) (by decide)⟩

/-- C6: `logout` sets the session cookie with an empty value, `MaxAge` -1,
path `/` and `HttpOnly`, then answers 204; it does so in every environment and
makes no datastore call. -/
theorem logout_clears_cookie (w : World) :
    (logout w).trace =
      [ Event.SetCookie {
          Name := w.sessionCookie, Value := "", Path := "/", Expires := w.now 0,
          MaxAge := -1, Secure := (w.Options.Env == "PROD" || w.Options.Env == "TEST"),
          HttpOnly := true },
        Event.WriteHeader 204, Event.Write "\n" ] ∧
    (logout w).outcome = .returned ∧
    (logout w).trace.any Event.touchesDatastore = false := by
  refine ⟨rfl, rfl, rfl⟩

/-- C7: for a non-empty regexp that compiles to `re`, when the chat API
returns the channels `chs` and the groups `grs`, `match` encodes exactly the
names of the member channels `re` matches, in API order, followed by the names
of the groups `re` matches, in API order; for the empty regexp it encodes the
empty, non-nil list and makes no call to the chat API (nor to any other
external API). -/
theorem match_returns_matching_names (w : World) (req : regexpMatch) (u : User) :
    (∀ (re : Regexp) (chs : List Channel) (grs : List Group),
      req.Regexp ≠ "" → w.Compile req.Regexp = .ok re → w.SlackNew u.Token = none →
      w.ChannelList u.Token true = .ok chs → w.GroupList u.Token true = .ok grs →
      (match_ w req u).trace =
        [ Event.call (.SlackNew u.Token) none, Event.call (.ChannelList u.Token true) none,
          Event.call (.GroupList u.Token true) none,
          Event.Encode (.strings (some (
            (chs.filter (fun c => c.IsMember && re.MatchString c.Name)).map (fun c => c.Name) ++
            (grs.filter (fun g => re.MatchString g.Name)).map (fun g => g.Name)))) ] ∧
      (match_ w req u).outcome = .returned) ∧
    (req.Regexp = "" →
      (match_ w req u).trace = [Event.Encode (.strings (some []))] ∧
      (match_ w req u).outcome = .returned ∧
      (match_ w req u).trace.any Event.isExternalCall = false) := by
  constructor
  · intro re chs grs hne hc hnew hch hgr
    simp [match_, hne, hc, hnew, hch, hgr, call, emit, bind, Run.bind, pure, Run.pure, errOf,
      asResult, Run.outcome, match_channel_loop, match_group_loop]
  · intro he
    simp [match_, he, emit, bind, Run.bind, pure, Run.pure, Run.outcome, Event.isExternalCall]

/-- C7 at the pattern `^dev` over the sample channels and groups, and at the
empty pattern. -/
theorem match_returns_matching_names_witness :
    ((match_ okWorld ⟨"^dev"⟩ sampleUser).trace =
        [ Event.call (.SlackNew "xoxp-1") none, Event.call (.ChannelList "xoxp-1" true) none,
          Event.call (.GroupList "xoxp-1" true) none,
          Event.Encode (.strings (some (["dev"] ++ ["dev-private"]))) ] ∧
      (match_ okWorld ⟨"^dev"⟩ sampleUser).outcome = .returned) ∧
    ((match_ okWorld ⟨""⟩ sampleUser).trace = [Event.Encode (.strings (some []))] ∧
      (match_ okWorld ⟨""⟩ sampleUser).outcome = .returned ∧
      (match_ okWorld ⟨""⟩ sampleUser).trace.any Event.isExternalCall = false) :=
  ⟨(match_returns_matching_names okWorld ⟨"^dev"⟩ sampleUser).1
      ⟨fun name => name == "dev" || name == "dev-ops" || name == "dev-private"⟩
      [⟨"C1", "general", true⟩, ⟨"C2", "dev", true⟩, ⟨"C3", "dev-ops", false⟩]
      [⟨"G1", "dev-private"⟩, ⟨"G2", "board"⟩] (by decide) rfl rfl rfl rfl,
   (match_returns_matching_names okWorld ⟨""⟩ sampleUser).2 rfl⟩

/-- C8 (as stated, refuted): the regexp `^dev` compiles and the datastore
write fails.  `save` calls `SetChannelsAndGroups` and panics: `PushConf` is not
enqueued and no 204 is written. -/
theorem save_datastore_failure_skips_push :
    sampleConf.Regexp = "^dev" ∧
    (∃ re, readOnlyWorld.Compile sampleConf.Regexp = .ok re) ∧
    readOnlyWorld.SetChannelsAndGroups "T1" sampleConf = some "datastore unavailable" ∧
    (save readOnlyWorld sampleConf sampleUser).trace =
      [Event.call (.SetChannelsAndGroups "T1" sampleConf) (some "datastore unavailable")] ∧
    (save readOnlyWorld sampleConf sampleUser).outcome = .panicked "datastore unavailable" := by
  refine ⟨rfl, ⟨_, rfl⟩, rfl, by decide, by decide⟩

/-- C8 (amended): when the regexp is empty or compiles, `save` calls
`SetChannelsAndGroups` once, with the user's team and the request
configuration unchanged; if that call returns no error it then enqueues
`PushConf` with the same team and configuration and answers 204, and if it
returns an error `save` panics with it and does neither.  When the regexp is
non-empty and does not compile, neither `SetChannelsAndGroups` nor `PushConf`
is called. -/
theorem save_persists_valid_configuration (w : World) (req : Configuration) (u : User) :
    ((req.Regexp = "" ∨ ∃ re, w.Compile req.Regexp = .ok re) →
      (w.SetChannelsAndGroups u.Team req = none →
        (save w req u).trace =
          [ Event.call (.SetChannelsAndGroups u.Team req) none,
            Event.invoke (.PushConf u.Team req),
            Event.WriteHeader 204, Event.Write "\n" ] ∧
        (save w req u).outcome = .returned) ∧
      (∀ e, w.SetChannelsAndGroups u.Team req = some e →
        (save w req u).trace = [Event.call (.SetChannelsAndGroups u.Team req) (some e)] ∧
        (save w req u).outcome = .panicked e)) ∧
    ((req.Regexp ≠ "" ∧ ∃ e, w.Compile req.Regexp = .error e) →
      (save w req u).trace.any Event.isPersist = false) := by
  refine ⟨fun hv => ⟨fun hs => ?_, fun e hs => ?_⟩, fun hb => ?_⟩
  · rcases hv with h0 | ⟨re, hc⟩
    · simp [save, h0, hs, call, emit, bind, Run.bind, pure, Run.pure, errOf, asResult,
        Run.outcome]
    · by_cases h0 : req.Regexp = "" <;>
      simp [save, h0, hc, hs, call, emit, bind, Run.bind, pure, Run.pure, errOf, asResult,
        Run.outcome]
  · rcases hv with h0 | ⟨re, hc⟩
    · simp [save, h0, hs, call, emit, goPanic, bind, Run.bind, pure, Run.pure, errOf, asResult,
        Run.outcome]
    · by_cases h0 : req.Regexp = "" <;>
      simp [save, h0, hc, hs, call, emit, goPanic, bind, Run.bind, pure, Run.pure, errOf,
        asResult, Run.outcome]
  · obtain ⟨h0, e, hc⟩ := hb
    simp [save, h0, hc, WriteError, emit, bind, Run.bind, pure, Run.pure, Event.isPersist]

/-- C8 (amended) at a successful write, a failing write and a regexp that does
not compile. -/
theorem save_persists_valid_configuration_witness :
    ((save okWorld sampleConf sampleUser).trace =
        [ Event.call (.SetChannelsAndGroups "T1" sampleConf) none,
          Event.invoke (.PushConf "T1" sampleConf),
          Event.WriteHeader 204, Event.Write "\n" ] ∧
      (save okWorld sampleConf sampleUser).outcome = .returned) ∧
    ((save readOnlyWorld sampleConf sampleUser).trace =
        [Event.call (.SetChannelsAndGroups "T1" sampleConf) (some "datastore unavailable")] ∧
      (save readOnlyWorld sampleConf sampleUser).outcome = .panicked "datastore unavailable") ∧
    (save okWorld { sampleConf with Regexp := "(" } sampleUser).trace.any Event.isPersist = false :=
  ⟨((save_persists_valid_configuration okWorld sampleConf sampleUser).1
      (Or.inr ⟨_, rfl⟩)).1 rfl,
   ((save_persists_valid_configuration readOnlyWorld sampleConf sampleUser).1
      (Or.inr ⟨_, rfl⟩)).2 _ rfl,
   (save_persists_valid_configuration okWorld { sampleConf with Regexp := "(" } sampleUser).2
      ⟨by decide, _, rfl⟩⟩

/-- C9: in `loginOAuth`, a non-empty error parameter is answered with the 401
`oauth_err` error whose detail is that parameter; otherwise an empty state, an
empty code, or a state the datastore does not return is answered with
`ErrBadContentRequest`.  In each case the handler returns there: no token
exchange, no team or user record stored, no cookie set. -/
theorem loginOAuth_rejects_early (w : World) (f : String → String)
    (h : f "error" ≠ "" ∨ f "state" = "" ∨ f "code" = "" ∨
      ∃ e, w.OAuthState (f "state") = .error e) :
    (loginOAuth w f).trace =
      (if f "error" ≠ "" then
        [Event.WriteError
          ({ ID := "oauth_err", Status := 401, Title := "Slack OAuth Error",
             Detail := f "error" } : Error)]
       else if f "state" = "" ∨ f "code" = "" then [Event.WriteError w.ErrBadContentRequest]
       else [Event.call (.OAuthState (f "state")) (errOf (w.OAuthState (f "state"))),
             Event.WriteError w.ErrBadContentRequest]) ∧
    (loginOAuth w f).outcome = .returned ∧
    (loginOAuth w f).trace.any Event.isOAuthAccess = false ∧
    (loginOAuth w f).trace.any Event.isSetTeamAndUser = false ∧
    (loginOAuth w f).trace.any Event.isSetCookie = false := by
  by_cases h1 : f "error" = ""
  · by_cases h2 : f "state" = "" ∨ f "code" = ""
    · simp [loginOAuth, h1, h2, WriteError, emit, bind, Run.bind, pure, Run.pure, Run.outcome,
        Event.isOAuthAccess, Event.isSetTeamAndUser, Event.isSetCookie]
    · have h3 : ∃ e, w.OAuthState (f "state") = .error e := by
        rcases h with h | h | h | h
        · exact absurd h1 h
        · exact absurd (Or.inl h) h2
        · exact absurd (Or.inr h) h2
        · exact h
      obtain ⟨e, he⟩ := h3
      simp [loginOAuth, h1, h2, he, WriteError, emit, bind, Run.bind, pure, Run.pure,
        Run.outcome, Event.isOAuthAccess, Event.isSetTeamAndUser, Event.isSetCookie, call, errOf]
  · simp [loginOAuth, h1, WriteError, emit, bind, Run.bind, pure, Run.pure, Run.outcome,
      Event.isOAuthAccess, Event.isSetTeamAndUser, Event.isSetCookie]

/-- C9 at a callback whose state the datastore does not know. -/
theorem loginOAuth_rejects_early_witness :
    okWorld.OAuthState (unknownStateForm "state") = .error "not found" ∧
    (loginOAuth okWorld unknownStateForm).trace =
      [ Event.call (.OAuthState "st-9") (some "not found"),
        Event.WriteError okWorld.ErrBadContentRequest ] ∧
    (loginOAuth okWorld unknownStateForm).outcome = .returned ∧
    (loginOAuth okWorld unknownStateForm).trace.any Event.isOAuthAccess = false ∧
    (loginOAuth okWorld unknownStateForm).trace.any Event.isSetTeamAndUser = false ∧
    (loginOAuth okWorld unknownStateForm).trace.any Event.isSetCookie = false :=
  ⟨rfl, loginOAuth_rejects_early okWorld unknownStateForm (Or.inr (Or.inr (Or.inr ⟨_, rfl⟩)))⟩

/-- C10: when the chat API returns the channels `chs` and the groups `grs`,
the `Channels` list of the info response has one entry, with the channel's ID
and name, for each channel with `IsMember` true and none for the others, in
the API's order, and the `Groups` list has one entry for every group, in the
API's order, so it has as many entries as there are groups. -/
theorem info_lists_member_channels_and_groups (w : World) (u : User) (cfg : Configuration)
    (chs : List Channel) (grs : List Group)
    (hcfg : w.ChannelsAndGroups u.Team = .ok cfg) (hnew : w.SlackNew u.Token = none)
    (hch : w.ChannelList u.Token true = .ok chs) (hgr : w.GroupList u.Token true = .ok grs) :
    ∃ res : infoResponse,
      (info w u).trace =
        [ Event.call (.ChannelsAndGroups u.Team) none, Event.call (.SlackNew u.Token) none,
          Event.call (.ChannelList u.Token true) none, Event.call (.GroupList u.Token true) none,
          Event.Encode (.info res) ] ∧
      res.Channels.elems.map (fun e => (e.ID, e.Name)) =
        (chs.filter (fun c => c.IsMember)).map (fun c => (c.ID, c.Name)) ∧
      res.Groups.elems.map (fun e => (e.ID, e.Name)) = grs.map (fun g => (g.ID, g.Name)) ∧
      res.Groups.elems.length = grs.length := by
  obtain ⟨res, ht, -, hcs, hgs, -⟩ := info_run w u cfg chs grs hcfg hnew hch hgr
  refine ⟨res, ht, ?_, ?_, ?_⟩
  · rw [hcs, List.map_map]
    rfl
  · rw [hgs, List.map_map]
    rfl
  · rw [hgs, List.length_map]

/-- C10 at the sample channels and groups. -/
theorem info_lists_member_channels_and_groups_witness :
    ∃ res : infoResponse,
      (info okWorld sampleUser).trace =
        [ Event.call (.ChannelsAndGroups "T1") none, Event.call (.SlackNew "xoxp-1") none,
          Event.call (.ChannelList "xoxp-1" true) none, Event.call (.GroupList "xoxp-1" true) none,
          Event.Encode (.info res) ] ∧
      res.Channels.elems.map (fun e => (e.ID, e.Name)) = [("C1", "general"), ("C2", "dev")] ∧
      res.Groups.elems.map (fun e => (e.ID, e.Name)) = [("G1", "dev-private"), ("G2", "board")] ∧
      res.Groups.elems.length = 2 :=
  info_lists_member_channels_and_groups okWorld sampleUser sampleConf
    [⟨"C1", "general", true⟩, ⟨"C2", "dev", true⟩, ⟨"C3", "dev-ops", false⟩]
    [⟨"G1", "dev-private"⟩, ⟨"G2", "board"⟩] rfl rfl rfl rfl

end Alfred
